import Mathlib

/-!
Verification development for the HQAstroCam backend (`app/camera.py`,
`app/main.py`): a shallow embedding of the settings-coercion table, the
camera session state machine (real and mock implementations), the
streaming frame buffer, and the file-management HTTP handlers, together
with theorems settling the specification claims.

Modelling conventions:
* Python runtime values arriving from JSON or from the static preset
  tables are embedded as `PyVal`; finite Python floats are modelled as
  rationals (`Rat`).
* Fallible Python operations return `Except PyError`; an uncaught
  exception is an `Except.error` that propagates.
* Python dicts are association lists (`List (String × PyVal)`); callers
  that need dict semantics state a no-duplicate-keys hypothesis.
* Hardware calls (`self._cam.…`) are recorded as an explicit `HwAction`
  trace; file-system touches of the HTTP handlers are recorded as an
  explicit `FsEffect` trace.  Wall-clock timestamps and the capture
  directory are passed in as parameters.
-/

namespace HQAstroCam

/-- Python runtime values as they can reach `_coerce_settings`: JSON
scalars and sequences, plus `None`.  Finite floats are modelled as
rationals. -/
inductive PyVal where
  | vBool (b : Bool)
  | vInt (n : Int)
  | vFloat (q : Rat)
  | vStr (s : String)
  | vList (xs : List PyVal)
  | vTuple (xs : List PyVal)
  | vNone

/-- Declared control types of `CONTROL_META` (`"bool"`, `"int"`,
`"float"`, `"select"`, `"tuple2"`). -/
inductive CtrlType where
  | tBool
  | tInt
  | tFloat
  | tSelect
  | tTuple2
  deriving DecidableEq

/-- Python exception kinds relevant to the coercion code.  The
`except (ValueError, TypeError)` clause in `_coerce_settings` catches
exactly the first two; `overflowError` stands for exception kinds the
clause would not catch. -/
inductive PyError where
  | valueError
  | typeError
  | overflowError
  deriving DecidableEq

/-- The control table `CONTROL_META`, reduced to the field the coercion
logic reads: the declared type of each key. -/
def CONTROL_META : List (String × CtrlType) :=
  [ ("AeEnable", .tBool)
  , ("AwbEnable", .tBool)
  , ("ExposureTime", .tInt)
  , ("AnalogueGain", .tFloat)
  , ("ColourGains", .tTuple2)
  , ("Brightness", .tFloat)
  , ("Contrast", .tFloat)
  , ("Saturation", .tFloat)
  , ("Sharpness", .tFloat)
  , ("NoiseReductionMode", .tSelect)
  , ("AfMode", .tSelect)
  , ("LensPosition", .tFloat) ]

/-- Python truthiness, as used by `bool(val)`: total on our value
domain. -/
def pyBool : PyVal → Bool
  | .vBool b => b
  | .vInt n => n != 0
  | .vFloat q => q != 0
  | .vStr s => s != ""
  | .vList xs => !xs.isEmpty
  | .vTuple xs => !xs.isEmpty
  | .vNone => false

/-- Digits of a numeral string to a natural number. -/
def digitsToNat (cs : List Char) : Nat :=
  cs.foldl (fun acc c => acc * 10 + (c.toNat - Char.toNat '0')) 0

/-- Check that a character list is a non-empty run of decimal digits. -/
def isDigits (cs : List Char) : Bool :=
  !cs.isEmpty && cs.all (·.isDigit)

/-- Modelled subset of Python `int(str)` parsing: optional surrounding
whitespace, optional sign, decimal digits.  Strings outside this subset
are treated as parse failures (`ValueError`), like Python does for
non-numeric strings. -/
def parseIntStr (s : String) : Option Int :=
  match s.trim.data with
  | '-' :: rest => if isDigits rest then some (-(digitsToNat rest : Int)) else none
  | '+' :: rest => if isDigits rest then some (digitsToNat rest : Int) else none
  | t => if isDigits t then some (digitsToNat t : Int) else none

/-- Unsigned decimal numeral with an optional fractional part. -/
def parseUnsignedRat (cs : List Char) : Option Rat :=
  match cs.span (· != '.') with
  | (intPart, []) =>
      if isDigits intPart then some (digitsToNat intPart : Rat) else none
  | (intPart, _dot :: fracPart) =>
      if (isDigits intPart || intPart.isEmpty) &&
         (isDigits fracPart || fracPart.isEmpty) &&
         !(intPart.isEmpty && fracPart.isEmpty) then
        some ((digitsToNat intPart : Rat) +
          (digitsToNat fracPart : Rat) / ((10 : Rat) ^ fracPart.length))
      else none

/-- Modelled subset of Python `float(str)` parsing: optional surrounding
whitespace, optional sign, decimal digits with an optional fractional
part.  Strings outside this subset are parse failures (`ValueError`).
Unlike `float(int)`, `float(str)` never raises `OverflowError` in
Python (out-of-range numerals clamp to infinity); the model keeps the
exact rational, and no claim depends on the numeric value of a parsed
string. -/
def parseFloatStr (s : String) : Option Rat :=
  match s.trim.data with
  | '-' :: rest => (parseUnsignedRat rest).map (fun q => -q)
  | '+' :: rest => parseUnsignedRat rest
  | t => parseUnsignedRat t

/-- Smallest magnitude at which CPython `float(int)` raises
`OverflowError` ("int too large to convert to float"): integers of
absolute value at least `2^1024 - 2^970` round (half-to-even) to the
IEEE-754 double infinity. -/
def FLOAT_INT_OVERFLOW : Nat := 2 ^ 1024 - 2 ^ 970

/-- Whether Python `float(n)` succeeds for the unbounded integer `n`. -/
def intFitsFloat (n : Int) : Bool := n.natAbs < FLOAT_INT_OVERFLOW

/-- Truncation toward zero, as Python `int(float)` does for finite
floats. -/
def ratTrunc (q : Rat) : Int :=
  if q < 0 then ⌈q⌉ else ⌊q⌋

/-- Python `int(val)` on our value domain.  Lists, tuples and `None`
raise `TypeError`; unparsable strings raise `ValueError`. -/
def pyInt : PyVal → Except PyError Int
  | .vBool b => .ok (if b then 1 else 0)
  | .vInt n => .ok n
  | .vFloat q => .ok (ratTrunc q)
  | .vStr s =>
      match parseIntStr s with
      | some n => .ok n
      | none => .error .valueError
  | .vList _ => .error .typeError
  | .vTuple _ => .error .typeError
  | .vNone => .error .typeError

/-- Python `float(val)` on our value domain.  `float(int)` raises an
`OverflowError` — which `_coerce_settings` does not catch — when the
integer is too large to convert to a double. -/
def pyFloat : PyVal → Except PyError Rat
  | .vBool b => .ok (if b then 1 else 0)
  | .vInt n => if intFitsFloat n then .ok (n : Rat) else .error .overflowError
  | .vFloat q => .ok q
  | .vStr s =>
      match parseFloatStr s with
      | some q => .ok q
      | none => .error .valueError
  | .vList _ => .error .typeError
  | .vTuple _ => .error .typeError
  | .vNone => .error .typeError

/-- Body of the `try` block of `_coerce_settings` for one key whose
declared type is `t`: `ok (some w)` stores `w`, `ok none` silently skips
the key (the `tuple2` shape test failing), `error e` is a raised Python
exception. -/
def coerceValue (t : CtrlType) (v : PyVal) : Except PyError (Option PyVal) :=
  match t with
  | .tBool => .ok (some (.vBool (pyBool v)))
  | .tInt => (pyInt v).map (fun n => some (.vInt n))
  | .tFloat => (pyFloat v).map (fun q => some (.vFloat q))
  | .tSelect => (pyInt v).map (fun n => some (.vInt n))
  | .tTuple2 =>
      match v with
      | .vList [a, b] => do
          let x ← pyFloat a
          let y ← pyFloat b
          pure (some (.vTuple [.vFloat x, .vFloat y]))
      | .vTuple [a, b] => do
          let x ← pyFloat a
          let y ← pyFloat b
          pure (some (.vTuple [.vFloat x, .vFloat y]))
      | _ => .ok none

/-- Exception kinds listed in the `except (ValueError, TypeError)`
clause of `_coerce_settings`. -/
def caughtByCoerce : PyError → Bool
  | .valueError => true
  | .typeError => true
  | .overflowError => false

/-- Whether `float(v)` is free of the uncatchable `OverflowError`: only
an out-of-range integer triggers it. -/
def safeForFloat : PyVal → Bool
  | .vInt n => intFitsFloat n
  | _ => true

/-- Whether coercing `v` at declared type `t` can reach the uncaught
`OverflowError`: only `float` coercions applied to out-of-range
integers — directly for a `float` control, or through the elements of a
2-element sequence for a `tuple2` control. -/
def tySafe : CtrlType → PyVal → Bool
  | .tFloat, v => safeForFloat v
  | .tTuple2, .vList [a, b] => safeForFloat a && safeForFloat b
  | .tTuple2, .vTuple [a, b] => safeForFloat a && safeForFloat b
  | _, _ => true

/-- Per-entry safety from the `OverflowError` escape: the declared type
of the key (unknown keys are skipped before any coercion). -/
def keySafe (k : String) (v : PyVal) : Bool :=
  match List.lookup k CONTROL_META with
  | some t => tySafe t v
  | none => true

/-- One loop iteration of `_coerce_settings`: unknown keys are skipped,
the declared-type coercion is attempted, and `ValueError`/`TypeError`
are caught (the key is dropped); any other exception propagates. -/
def coerceKey (k : String) (v : PyVal) : Except PyError (Option PyVal) :=
  match List.lookup k CONTROL_META with
  | none => .ok none
  | some t =>
      match coerceValue t v with
      | .ok r => .ok r
      | .error e => if caughtByCoerce e then .ok none else .error e

/-- The `_coerce_settings` loop with exception propagation made
explicit: an uncaught exception aborts the whole call. -/
def coerceSettingsE : List (String × PyVal) → Except PyError (List (String × PyVal))
  | [] => .ok []
  | (k, v) :: rest => do
      let r ← coerceKey k v
      let out ← coerceSettingsE rest
      pure (match r with
            | some w => (k, w) :: out
            | none => out)

/-- The value `_coerce_settings` returns (its non-raising executions);
`coerce_settings_total` proves it agrees with `coerceSettingsE` on every
input. -/
def coerceSettings : List (String × PyVal) → List (String × PyVal)
  | [] => []
  | (k, v) :: rest =>
      match coerceKey k v with
      | .ok (some w) => (k, w) :: coerceSettings rest
      | _ => coerceSettings rest

/-- Python `dict.update(new)`: existing keys keep their position and take
the new value, new keys are appended in order. -/
def dictUpdate (d new : List (String × PyVal)) : List (String × PyVal) :=
  d.map (fun p =>
      match List.lookup p.1 new with
      | some v => (p.1, v)
      | none => p) ++
    new.filter (fun p => !(d.any (fun q => q.1 == p.1)))

/-- Runtime type check: the stored value matches the declared control
type (Python `bool` / `int` / `float` / 2-tuple of `float`). -/
def declaredTypeOk : CtrlType → PyVal → Bool
  | .tBool, .vBool _ => true
  | .tInt, .vInt _ => true
  | .tSelect, .vInt _ => true
  | .tFloat, .vFloat _ => true
  | .tTuple2, .vTuple [.vFloat _, .vFloat _] => true
  | _, _ => false

/-- The settings-state invariant: every stored key is in `CONTROL_META`
and its value's runtime type matches the declared type. -/
def settingsOk (d : List (String × PyVal)) : Bool :=
  d.all (fun p =>
    match List.lookup p.1 CONTROL_META with
    | some t => declaredTypeOk t p.2
    | none => false)

/-- `DEFAULT_SETTINGS` from `app/camera.py`. -/
def DEFAULT_SETTINGS : List (String × PyVal) :=
  [ ("AeEnable", .vBool false)
  , ("AwbEnable", .vBool false)
  , ("ExposureTime", .vInt 4000000)
  , ("AnalogueGain", .vFloat 4)
  , ("ColourGains", .vTuple [.vFloat (3/2), .vFloat (3/2)])
  , ("Brightness", .vFloat 0)
  , ("Contrast", .vFloat 1)
  , ("Saturation", .vFloat 1)
  , ("Sharpness", .vFloat 1)
  , ("NoiseReductionMode", .vInt 2) ]

/-- The `"settings"` dicts of the `PRESETS` table, as the raw values fed
to `apply_settings`. -/
def PRESETS : List (String × List (String × PyVal)) :=
  [ ("deep_sky",
      [ ("AeEnable", .vBool false)
      , ("AwbEnable", .vBool false)
      , ("ExposureTime", .vInt 30000000)
      , ("AnalogueGain", .vFloat 8)
      , ("ColourGains", .vTuple [.vFloat (3/2), .vFloat (3/2)])
      , ("NoiseReductionMode", .vInt 2)
      , ("Contrast", .vFloat 1)
      , ("Saturation", .vFloat (6/5)) ])
  , ("planetary",
      [ ("AeEnable", .vBool false)
      , ("AwbEnable", .vBool false)
      , ("ExposureTime", .vInt 10000)
      , ("AnalogueGain", .vFloat 2)
      , ("ColourGains", .vTuple [.vFloat (3/2), .vFloat (3/2)])
      , ("NoiseReductionMode", .vInt 1)
      , ("Contrast", .vFloat (6/5))
      , ("Saturation", .vFloat 1) ])
  , ("lucky_imaging",
      [ ("AeEnable", .vBool false)
      , ("AwbEnable", .vBool false)
      , ("ExposureTime", .vInt 100000)
      , ("AnalogueGain", .vFloat 4)
      , ("ColourGains", .vTuple [.vFloat (3/2), .vFloat (3/2)])
      , ("NoiseReductionMode", .vInt 0)
      , ("Contrast", .vFloat 1)
      , ("Saturation", .vFloat (4/5)) ])
  , ("milky_way",
      [ ("AeEnable", .vBool false)
      , ("AwbEnable", .vBool false)
      , ("ExposureTime", .vInt 15000000)
      , ("AnalogueGain", .vFloat 16)
      , ("ColourGains", .vTuple [.vFloat (9/5), .vFloat (7/5)])
      , ("NoiseReductionMode", .vInt 2)
      , ("Contrast", .vFloat (11/10))
      , ("Saturation", .vFloat (13/10)) ]) ]

/-- The settings transition shared verbatim by `RealCamera.apply_settings`
and `MockCamera.apply_settings`: `self._settings.update(_coerce_settings(new))`. -/
def applySettingsFn (d : List (String × PyVal)) (raw : List (String × PyVal)) :
    List (String × PyVal) :=
  dictUpdate d (coerceSettings raw)

/-- Operations that mutate the settings state. -/
inductive SettingsOp where
  | applySettings (raw : List (String × PyVal))
  | applyPreset (name : String)

/-- One settings operation; `apply_preset` with an unknown name raises
`ValueError` before touching the state, leaving it unchanged. -/
def applyOpSettings (d : List (String × PyVal)) : SettingsOp → List (String × PyVal)
  | .applySettings raw => applySettingsFn d raw
  | .applyPreset name =>
      match List.lookup name PRESETS with
      | some raw => applySettingsFn d raw
      | none => d

/-- A sequence of settings operations run from state `d`. -/
def runSettingsOps (d : List (String × PyVal)) : List SettingsOp → List (String × PyVal)
  | [] => d
  | op :: rest => runSettingsOps (applyOpSettings d op) rest

/-! Helper lemmas about lookup and association lists. -/

theorem lookup_mem {α β : Type} [BEq α] [LawfulBEq α] {l : List (α × β)} {k : α} {v : β}
    (h : List.lookup k l = some v) : (k, v) ∈ l := by
  induction l with
  | nil => simp [List.lookup] at h
  | cons p t ih =>
    obtain ⟨a, b⟩ := p
    cases hk : k == a with
    | true =>
      have : b = v := by simpa [List.lookup, hk] using h
      subst this
      have : k = a := eq_of_beq hk
      subst this
      exact List.mem_cons_self _ _
    | false =>
      have h' : List.lookup k t = some v := by simpa [List.lookup, hk] using h
      exact List.mem_cons_of_mem _ (ih h')

theorem nodup_keys_unique {β : Type} {l : List (String × β)}
    (hnd : (l.map Prod.fst).Nodup) {k : String} {a b : β}
    (ha : (k, a) ∈ l) (hb : (k, b) ∈ l) : a = b := by
  induction l with
  | nil => cases ha
  | cons p t ih =>
    rw [List.map_cons, List.nodup_cons] at hnd
    rcases List.mem_cons.mp ha with h1 | h1 <;> rcases List.mem_cons.mp hb with h2 | h2
    · rw [← h1] at h2
      exact (Prod.ext_iff.mp h2).2.symm
    · exfalso
      apply hnd.1
      rw [← h1]
      exact List.mem_map.mpr ⟨(k, b), h2, rfl⟩
    · exfalso
      apply hnd.1
      rw [← h2]
      exact List.mem_map.mpr ⟨(k, a), h1, rfl⟩
    · exact ih hnd.2 h1 h2

/-! Lemmas about the coercion primitives: every exception they raise is
one of the kinds caught by `_coerce_settings`. -/

theorem pyInt_error_caught {v : PyVal} {e : PyError} (h : pyInt v = .error e) :
    caughtByCoerce e = true := by
  cases v with
  | vBool b => simp [pyInt] at h
  | vInt n => simp [pyInt] at h
  | vFloat q => simp [pyInt] at h
  | vStr s =>
    cases hp : parseIntStr s <;> simp [pyInt, hp] at h <;> simp [← h, caughtByCoerce]
  | vList xs => simp [pyInt] at h; simp [← h, caughtByCoerce]
  | vTuple xs => simp [pyInt] at h; simp [← h, caughtByCoerce]
  | vNone => simp [pyInt] at h; simp [← h, caughtByCoerce]

theorem pyFloat_error_caught {v : PyVal} {e : PyError}
    (hs : safeForFloat v = true) (h : pyFloat v = .error e) :
    caughtByCoerce e = true := by
  cases v with
  | vBool b => simp [pyFloat] at h
  | vInt n =>
    simp [safeForFloat] at hs
    simp [pyFloat, hs] at h
  | vFloat q => simp [pyFloat] at h
  | vStr s =>
    cases hp : parseFloatStr s <;> simp [pyFloat, hp] at h <;> simp [← h, caughtByCoerce]
  | vList xs => simp [pyFloat] at h; simp [← h, caughtByCoerce]
  | vTuple xs => simp [pyFloat] at h; simp [← h, caughtByCoerce]
  | vNone => simp [pyFloat] at h; simp [← h, caughtByCoerce]

theorem coerceValue_pair_error_caught {a b : PyVal} {e : PyError}
    (hsa : safeForFloat a = true) (hsb : safeForFloat b = true)
    (h : (do
        let x ← pyFloat a
        let y ← pyFloat b
        pure (some (PyVal.vTuple [PyVal.vFloat x, PyVal.vFloat y]))
          : Except PyError (Option PyVal)) = .error e) :
    caughtByCoerce e = true := by
  cases hfa : pyFloat a with
  | error ea =>
    rw [hfa] at h
    simp only [bind, Bind.bind, Except.bind, Functor.map, Except.map, pure, Pure.pure,
      Except.pure, Except.error.injEq] at h
    subst h
    exact pyFloat_error_caught hsa hfa
  | ok x =>
    rw [hfa] at h
    cases hfb : pyFloat b with
    | error eb =>
      rw [hfb] at h
      simp only [bind, Bind.bind, Except.bind, Functor.map, Except.map, pure, Pure.pure,
        Except.pure, Except.error.injEq] at h
      subst h
      exact pyFloat_error_caught hsb hfb
    | ok y =>
      rw [hfb] at h
      exact Except.noConfusion h

theorem coerceValue_error_caught {t : CtrlType} {v : PyVal} {e : PyError}
    (hs : tySafe t v = true) (h : coerceValue t v = .error e) :
    caughtByCoerce e = true := by
  cases t with
  | tBool => simp [coerceValue] at h
  | tInt =>
    cases hp : pyInt v <;> simp [coerceValue, hp, Except.map] at h
    exact h ▸ pyInt_error_caught hp
  | tSelect =>
    cases hp : pyInt v <;> simp [coerceValue, hp, Except.map] at h
    exact h ▸ pyInt_error_caught hp
  | tFloat =>
    cases hp : pyFloat v <;> simp [coerceValue, hp, Except.map] at h
    exact h ▸ pyFloat_error_caught hs hp
  | tTuple2 =>
    cases v with
    | vList xs =>
      match xs with
      | [] => simp [coerceValue] at h
      | [a] => simp [coerceValue] at h
      | [a, b] =>
        simp [tySafe] at hs
        exact coerceValue_pair_error_caught hs.1 hs.2 (by simpa [coerceValue] using h)
      | a :: b :: c :: r => simp [coerceValue] at h
    | vTuple xs =>
      match xs with
      | [] => simp [coerceValue] at h
      | [a] => simp [coerceValue] at h
      | [a, b] =>
        simp [tySafe] at hs
        exact coerceValue_pair_error_caught hs.1 hs.2 (by simpa [coerceValue] using h)
      | a :: b :: c :: r => simp [coerceValue] at h
    | vBool b => simp [coerceValue] at h
    | vInt n => simp [coerceValue] at h
    | vFloat q => simp [coerceValue] at h
    | vStr s => simp [coerceValue] at h
    | vNone => simp [coerceValue] at h

theorem coerceKey_no_raise (k : String) (v : PyVal) (hs : keySafe k v = true) :
    ∃ r, coerceKey k v = .ok r := by
  cases hl : List.lookup k CONTROL_META with
  | none => exact ⟨none, by simp [coerceKey, hl]⟩
  | some t =>
    have hst : tySafe t v = true := by simpa [keySafe, hl] using hs
    cases hc : coerceValue t v with
    | ok r => exact ⟨r, by simp [coerceKey, hl, hc]⟩
    | error e =>
      exact ⟨none, by simp [coerceKey, hl, hc, coerceValue_error_caught hst hc]⟩

theorem coerceSettingsE_eq (raw : List (String × PyVal))
    (hs : raw.all (fun p => keySafe p.1 p.2) = true) :
    coerceSettingsE raw = .ok (coerceSettings raw) := by
  induction raw with
  | nil => rfl
  | cons p rest ih =>
    obtain ⟨k, v⟩ := p
    simp only [List.all_cons, Bool.and_eq_true] at hs
    obtain ⟨hs₁, hs₂⟩ := hs
    have ih := ih hs₂
    obtain ⟨r, hr⟩ := coerceKey_no_raise k v hs₁
    cases r with
    | none =>
      have hcs : coerceSettings ((k, v) :: rest) = coerceSettings rest := by
        simp [coerceSettings, hr]
      rw [hcs]
      show (do
          let r ← coerceKey k v
          let out ← coerceSettingsE rest
          pure (match r with
                | some w => (k, w) :: out
                | none => out)) = Except.ok (coerceSettings rest)
      rw [hr, ih]
      rfl
    | some w =>
      have hcs : coerceSettings ((k, v) :: rest) = (k, w) :: coerceSettings rest := by
        simp [coerceSettings, hr]
      rw [hcs]
      show (do
          let r ← coerceKey k v
          let out ← coerceSettingsE rest
          pure (match r with
                | some w => (k, w) :: out
                | none => out)) = Except.ok ((k, w) :: coerceSettings rest)
      rw [hr, ih]
      rfl

/-! Typing of the coercion output. -/

theorem coerceValue_pair_ok {a b w : PyVal}
    (h : (do
        let x ← pyFloat a
        let y ← pyFloat b
        pure (some (PyVal.vTuple [PyVal.vFloat x, PyVal.vFloat y]))
          : Except PyError (Option PyVal)) = .ok (some w)) :
    declaredTypeOk .tTuple2 w = true := by
  cases hfa : pyFloat a with
  | error ea =>
    rw [hfa] at h
    exact Except.noConfusion h
  | ok x =>
    rw [hfa] at h
    cases hfb : pyFloat b with
    | error eb =>
      rw [hfb] at h
      exact Except.noConfusion h
    | ok y =>
      rw [hfb] at h
      have hw : PyVal.vTuple [PyVal.vFloat x, PyVal.vFloat y] = w := by
        simpa [bind, Bind.bind, Except.bind, Functor.map, Except.map, pure, Pure.pure,
          Except.pure] using h
      subst hw
      rfl

theorem coerceValue_some_typed {t : CtrlType} {v w : PyVal}
    (h : coerceValue t v = .ok (some w)) : declaredTypeOk t w = true := by
  cases t with
  | tBool =>
    simp [coerceValue] at h
    simp [← h, declaredTypeOk]
  | tInt =>
    cases hp : pyInt v <;> simp [coerceValue, hp, Except.map] at h
    simp [← h, declaredTypeOk]
  | tSelect =>
    cases hp : pyInt v <;> simp [coerceValue, hp, Except.map] at h
    simp [← h, declaredTypeOk]
  | tFloat =>
    cases hp : pyFloat v <;> simp [coerceValue, hp, Except.map] at h
    simp [← h, declaredTypeOk]
  | tTuple2 =>
    cases v with
    | vList xs =>
      match xs with
      | [] => simp [coerceValue] at h
      | [a] => simp [coerceValue] at h
      | [a, b] => exact coerceValue_pair_ok (by simpa [coerceValue] using h)
      | a :: b :: c :: r => simp [coerceValue] at h
    | vTuple xs =>
      match xs with
      | [] => simp [coerceValue] at h
      | [a] => simp [coerceValue] at h
      | [a, b] => exact coerceValue_pair_ok (by simpa [coerceValue] using h)
      | a :: b :: c :: r => simp [coerceValue] at h
    | vBool b => simp [coerceValue] at h
    | vInt n => simp [coerceValue] at h
    | vFloat q => simp [coerceValue] at h
    | vStr s => simp [coerceValue] at h
    | vNone => simp [coerceValue] at h

theorem coerceKey_some {k : String} {v w : PyVal}
    (h : coerceKey k v = .ok (some w)) :
    ∃ t, List.lookup k CONTROL_META = some t ∧ declaredTypeOk t w = true := by
  cases hl : List.lookup k CONTROL_META with
  | none =>
    rw [coerceKey, hl] at h
    exact Option.noConfusion (Except.ok.inj h)
  | some t =>
    have h' : (match coerceValue t v with
        | Except.ok r => Except.ok r
        | Except.error e =>
            if caughtByCoerce e = true then Except.ok none else Except.error e)
        = (Except.ok (some w) : Except PyError (Option PyVal)) := by
      rw [coerceKey, hl] at h
      exact h
    cases hc : coerceValue t v with
    | ok r =>
      rw [hc] at h'
      have : r = some w := Except.ok.inj h'
      subst this
      exact ⟨t, rfl, coerceValue_some_typed hc⟩
    | error e =>
      rw [hc] at h'
      cases hce : caughtByCoerce e <;> simp [hce] at h'

theorem mem_coerceSettings {raw : List (String × PyVal)} {k : String} {w : PyVal}
    (h : (k, w) ∈ coerceSettings raw) :
    ∃ v₀, (k, v₀) ∈ raw ∧ coerceKey k v₀ = .ok (some w) := by
  induction raw with
  | nil => simp [coerceSettings] at h
  | cons p rest ih =>
    obtain ⟨k₁, v₁⟩ := p
    cases hr : coerceKey k₁ v₁ with
    | error e =>
      obtain ⟨v₀, hm, hc⟩ := ih (by simpa [coerceSettings, hr] using h)
      exact ⟨v₀, List.mem_cons_of_mem _ hm, hc⟩
    | ok r =>
      cases r with
      | none =>
        obtain ⟨v₀, hm, hc⟩ := ih (by simpa [coerceSettings, hr] using h)
        exact ⟨v₀, List.mem_cons_of_mem _ hm, hc⟩
      | some w₁ =>
        have h' : (k, w) ∈ (k₁, w₁) :: coerceSettings rest := by
          simpa [coerceSettings, hr] using h
        rcases List.mem_cons.mp h' with he | ht
        · have hk : k = k₁ := (Prod.mk.injEq _ _ _ _ ▸ he).1
          have hw : w = w₁ := (Prod.mk.injEq _ _ _ _ ▸ he).2
          subst hk
          exact ⟨v₁, List.mem_cons_self _ _, hw ▸ hr⟩
        · obtain ⟨v₀, hm, hc⟩ := ih ht
          exact ⟨v₀, List.mem_cons_of_mem _ hm, hc⟩

theorem settingsOk_mem {d : List (String × PyVal)} {k : String} {v : PyVal}
    (h : settingsOk d = true) (hm : (k, v) ∈ d) :
    ∃ t, List.lookup k CONTROL_META = some t ∧ declaredTypeOk t v = true := by
  have := List.all_eq_true.mp h (k, v) hm
  cases hl : List.lookup k CONTROL_META with
  | none => rw [hl] at this; simp at this
  | some t => rw [hl] at this; exact ⟨t, rfl, this⟩

theorem settingsOk_coerceSettings (raw : List (String × PyVal)) :
    settingsOk (coerceSettings raw) = true := by
  rw [settingsOk, List.all_eq_true]
  intro p hp
  obtain ⟨k, w⟩ := p
  obtain ⟨v₀, _, hc⟩ := mem_coerceSettings hp
  obtain ⟨t, hl, ht⟩ := coerceKey_some hc
  simp only []
  rw [hl]
  exact ht

theorem settingsOk_dictUpdate {d new : List (String × PyVal)}
    (hd : settingsOk d = true) (hn : settingsOk new = true) :
    settingsOk (dictUpdate d new) = true := by
  rw [settingsOk, List.all_eq_true]
  intro p hp
  rw [dictUpdate] at hp
  rcases List.mem_append.mp hp with hmem | hmem
  · obtain ⟨q, hq, hfq⟩ := List.mem_map.mp hmem
    obtain ⟨kq, vq⟩ := q
    cases hl : List.lookup kq new with
    | none =>
      rw [hl] at hfq
      subst hfq
      obtain ⟨t, hlm, ht⟩ := settingsOk_mem hd hq
      simp only []
      rw [hlm]
      exact ht
    | some v =>
      rw [hl] at hfq
      subst hfq
      obtain ⟨t, hlm, ht⟩ := settingsOk_mem hn (lookup_mem hl)
      simp only []
      rw [hlm]
      exact ht
  · exact List.all_eq_true.mp hn p (List.mem_filter.mp hmem).1

theorem settingsOk_applyOp {d : List (String × PyVal)} {op : SettingsOp}
    (h : settingsOk d = true) : settingsOk (applyOpSettings d op) = true := by
  cases op with
  | applySettings raw =>
    exact settingsOk_dictUpdate h (settingsOk_coerceSettings raw)
  | applyPreset name =>
    cases hl : List.lookup name PRESETS with
    | none => simpa [applyOpSettings, hl] using h
    | some raw =>
      simpa [applyOpSettings, hl, applySettingsFn] using
        settingsOk_dictUpdate h (settingsOk_coerceSettings raw)

theorem settingsOk_runOps {d : List (String × PyVal)} (ops : List SettingsOp)
    (h : settingsOk d = true) : settingsOk (runSettingsOps d ops) = true := by
  induction ops generalizing d with
  | nil => exact h
  | cons op rest ih => exact ih (settingsOk_applyOp h)

/-! Claim theorems for the settings model. -/

set_option maxRecDepth 8000 in
/-- C4 counterexample: `_coerce_settings` is not total over every input
mapping — the huge integer `10^400` under the float control
`AnalogueGain` makes `float(val)` raise an `OverflowError` that the
`except (ValueError, TypeError)` clause does not catch, so the call
propagates the exception instead of returning a dict. -/
theorem coerce_settings_total_counterexample :
    coerceSettingsE [("AnalogueGain", PyVal.vInt (Int.ofNat (10 ^ 400)))] =
      .error .overflowError ∧
    ∀ out, coerceSettingsE [("AnalogueGain", PyVal.vInt (Int.ofNat (10 ^ 400)))] ≠
      .ok out := by
  have h : coerceSettingsE [("AnalogueGain", PyVal.vInt (Int.ofNat (10 ^ 400)))] =
      .error .overflowError := rfl
  refine ⟨h, fun out hout => ?_⟩
  rw [h] at hout
  exact Except.noConfusion hout

/-- C4 (amended): on every input dict whose values place no
out-of-double-range integer (absolute value at least `2^1024 - 2^970`)
in a float-coercible position, `_coerce_settings` returns normally,
every output key comes from an input entry that is in `CONTROL_META`
and whose value coerced successfully, and any input key whose value
fails to coerce (or fails the float-pair shape test) is absent from the
output.  Without that restriction the call can raise an uncaught
`OverflowError`. -/
theorem coerce_settings_safe_total (raw : List (String × PyVal))
    (hnd : (raw.map Prod.fst).Nodup)
    (hsafe : raw.all (fun p => keySafe p.1 p.2) = true) :
    coerceSettingsE raw = .ok (coerceSettings raw) ∧
    (∀ k w, (k, w) ∈ coerceSettings raw →
      (List.lookup k CONTROL_META).isSome = true ∧
      ∃ v₀, (k, v₀) ∈ raw ∧ coerceKey k v₀ = .ok (some w)) ∧
    (∀ k v₀, (k, v₀) ∈ raw → coerceKey k v₀ = .ok none →
      ∀ w, (k, w) ∉ coerceSettings raw) := by
  refine ⟨coerceSettingsE_eq raw hsafe, ?_, ?_⟩
  · intro k w hmem
    obtain ⟨v₀, hv₀, hc⟩ := mem_coerceSettings hmem
    obtain ⟨t, hl, _⟩ := coerceKey_some hc
    exact ⟨by rw [hl]; rfl, v₀, hv₀, hc⟩
  · intro k v₀ hv₀ hnone w hmem
    obtain ⟨v₁, hv₁, hc⟩ := mem_coerceSettings hmem
    have : v₁ = v₀ := nodup_keys_unique hnd hv₁ hv₀
    subst this
    rw [hnone] at hc
    simp at hc

/-- Witness for C4 (amended) at a concrete dict holding a valid entry,
an unknown key, and a failing (but overflow-free) coercion. -/
theorem coerce_settings_safe_total_witness :
    coerceSettingsE
        [("AeEnable", PyVal.vBool true), ("Nope", PyVal.vInt 1),
         ("AnalogueGain", PyVal.vStr "x")] =
      .ok (coerceSettings
        [("AeEnable", PyVal.vBool true), ("Nope", PyVal.vInt 1),
         ("AnalogueGain", PyVal.vStr "x")]) :=
  (coerce_settings_safe_total _ (by decide) (by decide)).1

theorem coerceKey_valid {k : String} {v : PyVal} {t : CtrlType}
    (hm : List.lookup k CONTROL_META = some t) (hv : declaredTypeOk t v = true) :
    coerceKey k v = .ok (some v) := by
  have hcv : coerceValue t v = .ok (some v) := by
    cases t with
    | tBool =>
      cases v <;> simp [declaredTypeOk] at hv
      rfl
    | tInt =>
      cases v <;> simp [declaredTypeOk] at hv
      rfl
    | tSelect =>
      cases v <;> simp [declaredTypeOk] at hv
      rfl
    | tFloat =>
      cases v <;> simp [declaredTypeOk] at hv
      rfl
    | tTuple2 =>
      cases v with
      | vTuple xs =>
        match xs with
        | [] => simp [declaredTypeOk] at hv
        | [x] => simp [declaredTypeOk] at hv
        | [x, y] =>
          cases x <;> cases y <;> simp [declaredTypeOk] at hv
          rfl
        | x :: y :: z :: r => simp [declaredTypeOk] at hv
      | vList xs => simp [declaredTypeOk] at hv
      | vBool b => simp [declaredTypeOk] at hv
      | vInt n => simp [declaredTypeOk] at hv
      | vFloat q => simp [declaredTypeOk] at hv
      | vStr s => simp [declaredTypeOk] at hv
      | vNone => simp [declaredTypeOk] at hv
  simp [coerceKey, hm, hcv]

/-- C6: for every key of the control table and every value already of
the declared type, `_coerce_settings` maps that entry to itself: the
output binds the key to the unchanged input value. -/
theorem coerce_settings_identity_on_valid (raw : List (String × PyVal))
    (k : String) (v : PyVal) (t : CtrlType)
    (hm : List.lookup k CONTROL_META = some t)
    (hv : declaredTypeOk t v = true)
    (hr : List.lookup k raw = some v) :
    List.lookup k (coerceSettings raw) = some v := by
  induction raw with
  | nil => simp [List.lookup] at hr
  | cons p rest ih =>
    obtain ⟨k₁, v₁⟩ := p
    cases hk : k == k₁ with
    | true =>
      have hkeq : k = k₁ := eq_of_beq hk
      subst hkeq
      have hv₁ : v₁ = v := by simpa [List.lookup] using hr
      subst hv₁
      have hck : coerceKey k v₁ = .ok (some v₁) := coerceKey_valid hm hv
      simp [coerceSettings, hck, List.lookup]
    | false =>
      have hr' : List.lookup k rest = some v := by simpa [List.lookup, hk] using hr
      cases hkr : coerceKey k₁ v₁ with
      | error e =>
        have hcs : coerceSettings ((k₁, v₁) :: rest) = coerceSettings rest := by
          simp [coerceSettings, hkr]
        rw [hcs]
        exact ih hr'
      | ok r =>
        cases r with
        | none =>
          have hcs : coerceSettings ((k₁, v₁) :: rest) = coerceSettings rest := by
            simp [coerceSettings, hkr]
          rw [hcs]
          exact ih hr'
        | some w =>
          have hcs : coerceSettings ((k₁, v₁) :: rest) =
              (k₁, w) :: coerceSettings rest := by
            simp [coerceSettings, hkr]
          rw [hcs]
          rw [List.lookup, hk]
          exact ih hr'

/-- Witness for C6: the valid boolean entry `AeEnable ↦ True` is
returned unchanged. -/
theorem coerce_settings_identity_witness :
    List.lookup "AeEnable"
        (coerceSettings [("AeEnable", PyVal.vBool true)]) = some (PyVal.vBool true) :=
  coerce_settings_identity_on_valid _ "AeEnable" _ CtrlType.tBool rfl rfl rfl

/-- C5: starting from `DEFAULT_SETTINGS`, every sequence of
`apply_settings` / `apply_preset` operations keeps the settings state
inside the invariant: all stored keys are in `CONTROL_META` and every
stored value's runtime type matches the declared type. -/
theorem settings_invariant_preserved (ops : List SettingsOp) :
    settingsOk (runSettingsOps DEFAULT_SETTINGS ops) = true :=
  settingsOk_runOps ops (by rfl)

/-! Frame buffer (`StreamingOutput`) and string-suffix helper. -/

/-- Encoded preview frames, as opaque byte strings. -/
abbrev Frame := List Nat

/-- The `StreamingOutput` single-slot frame buffer. -/
structure StreamingOutput where
  frame : Option Frame

/-- The `write` method: replace the slot content (waking all waiters)
and return `len(buf)`. -/
def StreamingOutput.write (_o : StreamingOutput) (buf : Frame) : Nat × StreamingOutput :=
  (buf.length, { frame := some buf })

/-- Return value of `wait_for_frame` in an execution in which no frame
is published between the start of the call and the timeout: the
condition wait elapses (its result is ignored by the code) and the
current slot content is returned. -/
def StreamingOutput.waitForFrameTimeout (o : StreamingOutput) : Option Frame :=
  o.frame

/-- The string `s` ends with the given tail. -/
def strEndsWith (s tl : String) : Prop :=
  tl.data <:+ s.data

instance (s tl : String) : Decidable (strEndsWith s tl) := by
  rw [strEndsWith]
  infer_instance

theorem strEndsWith_append (a b : String) : strEndsWith (a ++ b) b := by
  rw [strEndsWith, String.data_append]
  exact List.suffix_append _ _

/-! The camera session state machine. -/

/-- Errors raised by camera-session operations: `RuntimeError("Already
recording")` and `ValueError("Unknown preset: …")`. -/
inductive CamError where
  | alreadyRecording
  | unknownPreset
  deriving DecidableEq

/-- Calls `RealCamera` makes on the picamera2 handle, recorded as an
explicit trace. -/
inductive HwAction where
  | stopRecording
  | configureStill (raw : Bool)
  | start
  | captureFile (jpg : String) (dng : Option String)
  | configurePreview
  | configureVideo
  | startRecording (out : Option String)
  deriving DecidableEq

/-- Mutable state of a `RealCamera` instance (`_recording`,
`_recording_path`, `_settings`, `_streaming_output`). -/
structure RealState where
  recording : Bool
  recordingPath : Option String
  settings : List (String × PyVal)
  streamingOutput : Option StreamingOutput

/-- Mutable state of a `MockCamera` instance. -/
structure MockState where
  recording : Bool
  recordingPath : Option String
  settings : List (String × PyVal)
  currentFrame : Option Frame
  running : Bool

/-- File naming scheme `photo_<ts>.jpg`. -/
def photoJpgPath (dir ts : String) : String :=
  dir ++ "/photo_" ++ ts ++ ".jpg"

/-- File naming scheme `photo_<ts>.dng`. -/
def photoDngPath (dir ts : String) : String :=
  dir ++ "/photo_" ++ ts ++ ".dng"

/-- File naming scheme `video_<ts>.mp4`. -/
def videoPath (dir ts : String) : String :=
  dir ++ "/video_" ++ ts ++ ".mp4"

/-- `RealCamera._start_recording_internal`: configure the video
pipeline, start an encoder writing to the current `_recording_path`,
and set `_recording = True`. -/
def startRecordingInternal (s : RealState) : List HwAction × RealState :=
  ([.configureVideo, .startRecording s.recordingPath], { s with recording := true })

/-- `RealCamera.capture_photo` (its non-raising executions): remember
whether a recording was active, stop the pipeline, switch to still
configuration, capture the JPEG (and DNG when requested), restore the
preview — which installs a fresh empty `StreamingOutput` — and, if a
recording was active, resume it via `_start_recording_internal` on the
unchanged `_recording_path`.  Returns the captured file list, the
hardware-call trace, and the new state. -/
def realCapturePhoto (s : RealState) (dir ts : String) (captureRaw : Bool) :
    List String × List HwAction × RealState :=
  let jpg := photoJpgPath dir ts
  let files := if captureRaw then [jpg, photoDngPath dir ts] else [jpg]
  let baseActs : List HwAction :=
    [.stopRecording, .configureStill captureRaw, .start,
     .captureFile jpg (if captureRaw then some (photoDngPath dir ts) else none),
     .configurePreview, .start]
  let s₁ : RealState := { s with streamingOutput := some { frame := none } }
  if s.recording then
    let (acts, s₂) := startRecordingInternal s₁
    (files, baseActs ++ acts, s₂)
  else
    (files, baseActs, s₁)

/-- `RealCamera.start_video`: the output path is computed first; under
the lock, `RuntimeError("Already recording")` is raised (state
untouched) when a recording is active, otherwise `_recording_path` is
set and `_start_recording_internal` runs. -/
def realStartVideo (s : RealState) (dir ts : String) :
    Except CamError String × List HwAction × RealState :=
  let path := videoPath dir ts
  if s.recording then
    (.error .alreadyRecording, [], s)
  else
    let s₁ : RealState := { s with recordingPath := some path }
    let (acts, s₂) := startRecordingInternal s₁
    (.ok path, acts, s₂)

/-- `RealCamera.stop_video`: returns the not-recording sentinel `None`
untouched when idle; otherwise stops the pipeline, clears the recording
fields, restores the preview (fresh `StreamingOutput`) and returns the
finished file's path. -/
def realStopVideo (s : RealState) :
    Option String × List HwAction × RealState :=
  if s.recording then
    (s.recordingPath, [.stopRecording, .configurePreview],
      { s with recording := false, recordingPath := none,
               streamingOutput := some { frame := none } })
  else
    (none, [], s)

/-- Last path component, as `Path(path).name`. -/
def baseName (p : String) : String :=
  ((p.splitOn "/").getLastD p)

/-- The `POST /api/video/stop` handler: maps the `None` sentinel to a
400 response and a returned path to a 200 response carrying the file
name. -/
def stopVideoRoute (s : RealState) : (Nat × Option String) × RealState :=
  let r := realStopVideo s
  match r.1 with
  | none => ((400, none), r.2.2)
  | some p => ((200, some (baseName p)), r.2.2)

/-- `MockCamera.capture_photo`: the JPEG is written only when a current
frame exists; the placeholder DNG is written whenever raw capture is
requested.  The session state is untouched. -/
def mockCapturePhoto (m : MockState) (dir ts : String) (captureRaw : Bool) :
    List String × MockState :=
  let jpgs := match m.currentFrame with
    | some _ => [photoJpgPath dir ts]
    | none => []
  (jpgs ++ (if captureRaw then [photoDngPath dir ts] else []), m)

/-- `MockCamera.start_video`. -/
def mockStartVideo (m : MockState) (dir ts : String) :
    Except CamError String × MockState :=
  if m.recording then
    (.error .alreadyRecording, m)
  else
    let p := videoPath dir ts
    (.ok p, { m with recording := true, recordingPath := some p })

/-- `MockCamera.stop_video`. -/
def mockStopVideo (m : MockState) : Option String × MockState :=
  if m.recording then
    (m.recordingPath, { m with recording := false, recordingPath := none })
  else
    (none, m)

/-- Return value of `MockCamera.get_frame` when the 2-second condition
wait elapses with no intervening publication. -/
def mockGetFrameTimeout (m : MockState) : Option Frame :=
  m.currentFrame

/-- State of a freshly constructed `RealCamera`: preview configured
with an empty frame slot, not recording, default settings. -/
def realFresh : RealState :=
  { recording := false, recordingPath := none, settings := DEFAULT_SETTINGS,
    streamingOutput := some { frame := none } }

/-- State of a freshly constructed `MockCamera` before its frame thread
publishes the first synthetic frame. -/
def mockFresh : MockState :=
  { recording := false, recordingPath := none, settings := DEFAULT_SETTINGS,
    currentFrame := none, running := true }

/-! Claim theorems for the session state machine. -/

/-- C1: a completing `capture_photo` call restores the pre-call mode —
`_recording` and `_recording_path` after the call equal their values
before it — and when a recording was active it is resumed by a
`start_recording` on the same output path. -/
theorem capture_photo_roundtrip (s : RealState) (dir ts : String) (captureRaw : Bool) :
    (realCapturePhoto s dir ts captureRaw).2.2.recording = s.recording ∧
    (realCapturePhoto s dir ts captureRaw).2.2.recordingPath = s.recordingPath ∧
    (s.recording = true →
      HwAction.startRecording s.recordingPath ∈ (realCapturePhoto s dir ts captureRaw).2.1) := by
  cases hrec : s.recording <;>
    simp [realCapturePhoto, startRecordingInternal, hrec]

/-- Witness for C1 at a concrete recording session: the resumed
recording targets the original output path. -/
theorem capture_photo_roundtrip_witness :
    HwAction.startRecording (some "/c/video_T0.mp4") ∈
      (realCapturePhoto
        { recording := true, recordingPath := some "/c/video_T0.mp4",
          settings := DEFAULT_SETTINGS, streamingOutput := none }
        "/c" "T1" false).2.1 :=
  (capture_photo_roundtrip _ "/c" "T1" false).2.2 rfl

/-- C2: while a recording is active, `start_video` raises
`RuntimeError("Already recording")` and the session state — including
`_recording_path` — is unchanged, in both implementations. -/
theorem start_video_already_recording (s : RealState) (m : MockState) (dir ts : String)
    (hs : s.recording = true) (hm : m.recording = true) :
    realStartVideo s dir ts = (.error .alreadyRecording, [], s) ∧
    mockStartVideo m dir ts = (.error .alreadyRecording, m) := by
  constructor
  · simp [realStartVideo, hs]
  · simp [mockStartVideo, hm]

/-- Witness for C2 at a concrete recording session. -/
theorem start_video_already_recording_witness :
    realStartVideo
        { recording := true, recordingPath := some "/c/video_T0.mp4",
          settings := DEFAULT_SETTINGS, streamingOutput := none } "/c" "T1" =
      (.error .alreadyRecording, [],
        { recording := true, recordingPath := some "/c/video_T0.mp4",
          settings := DEFAULT_SETTINGS, streamingOutput := none }) :=
  (start_video_already_recording _
    { recording := true, recordingPath := some "/c/video_T0.mp4",
      settings := DEFAULT_SETTINGS, currentFrame := none, running := true }
    "/c" "T1" rfl rfl).1

/-- C3: `stop_video` while idle returns the `None` sentinel without
raising and without touching the state (so the session stays in Preview
with `is_recording` false), and the HTTP layer maps the sentinel to a
400 response; while recording, it returns the recording's output path
and clears `_recording`. -/
theorem stop_video_sentinel (s : RealState) :
    (s.recording = false →
      realStopVideo s = (none, [], s) ∧
      stopVideoRoute s = ((400, none), s)) ∧
    (∀ p, s.recording = true → s.recordingPath = some p →
      realStopVideo s =
        (some p, [HwAction.stopRecording, HwAction.configurePreview],
          { s with recording := false, recordingPath := none,
                   streamingOutput := some { frame := none } })) := by
  constructor
  · intro h
    constructor
    · simp [realStopVideo, h]
    · simp [stopVideoRoute, realStopVideo, h]
  · intro p hrec hpath
    simp [realStopVideo, hrec, hpath]

/-- Witness for C3 at a concrete idle session: sentinel plus 400. -/
theorem stop_video_sentinel_witness :
    realStopVideo realFresh = (none, [], realFresh) ∧
    stopVideoRoute realFresh = ((400, none), realFresh) :=
  (stop_video_sentinel realFresh).1 rfl

/-- C7 counterexample: a `MockCamera.capture_photo` call completing
while not recording, before any preview frame has been generated,
returns a list whose first element is the placeholder `.dng` — not a
`.jpg` path — and with `raw=False` returns the empty list. -/
theorem capture_photo_jpg_counterexample :
    mockFresh.recording = false ∧
    (mockCapturePhoto mockFresh "/c" "T" true).1 = ["/c/photo_T.dng"] ∧
    ¬ strEndsWith "/c/photo_T.dng" ".jpg" ∧
    (mockCapturePhoto mockFresh "/c" "T" false).1 = [] := by
  refine ⟨rfl, rfl, by decide, rfl⟩

/-- C7 (amended): `RealCamera.capture_photo` while not recording always
returns a `.jpg` path first and, with `raw=true`, a `.dng` path second;
`MockCamera.capture_photo` satisfies the same shape whenever a current
preview frame is available (when none is, the mock omits the `.jpg`
entry). -/
theorem capture_photo_extensions (s : RealState) (m : MockState) (dir ts : String)
    (captureRaw : Bool) (f : Frame) (hf : m.currentFrame = some f) :
    (∃ jp, (realCapturePhoto s dir ts captureRaw).1.head? = some jp ∧
      strEndsWith jp ".jpg") ∧
    (captureRaw = true →
      ∃ dp, ((realCapturePhoto s dir ts captureRaw).1.drop 1).head? = some dp ∧
        strEndsWith dp ".dng") ∧
    (∃ jp, (mockCapturePhoto m dir ts captureRaw).1.head? = some jp ∧
      strEndsWith jp ".jpg") ∧
    (captureRaw = true →
      ∃ dp, ((mockCapturePhoto m dir ts captureRaw).1.drop 1).head? = some dp ∧
        strEndsWith dp ".dng") := by
  have hjpg : strEndsWith (photoJpgPath dir ts) ".jpg" := by
    rw [photoJpgPath]
    exact strEndsWith_append _ _
  have hdng : strEndsWith (photoDngPath dir ts) ".dng" := by
    rw [photoDngPath]
    exact strEndsWith_append _ _
  cases hrec : s.recording <;> cases hraw : captureRaw
  all_goals
    refine ⟨⟨photoJpgPath dir ts, ?_, hjpg⟩, ?_, ⟨photoJpgPath dir ts, ?_, hjpg⟩, ?_⟩
  all_goals
    simp [realCapturePhoto, mockCapturePhoto, startRecordingInternal, hrec, hf]
  · exact hdng
  · exact hdng
  · exact hdng
  · exact hdng

/-- Witness for C7 (amended) at a concrete mock session holding a
frame: the second returned path is the `.dng`. -/
theorem capture_photo_extensions_witness :
    ∃ dp, ((mockCapturePhoto
        { recording := false, recordingPath := none, settings := DEFAULT_SETTINGS,
          currentFrame := some [1], running := true } "/c" "T" true).1.drop 1).head? =
        some dp ∧ strEndsWith dp ".dng" :=
  (capture_photo_extensions realFresh _ "/c" "T" true [1] rfl).2.2.2 rfl

/-- C8 counterexample: a `wait_for_frame` call that times out with no
frame published during the wait returns the frame published before the
call began, not `none`. -/
theorem wait_for_frame_stale_counterexample :
    StreamingOutput.waitForFrameTimeout
        ((StreamingOutput.write { frame := none } [7]).2) = some [7] ∧
    (some [7] : Option Frame) ≠ none := by
  exact ⟨rfl, by simp⟩

/-- C8 (amended): a timed-out `wait_for_frame` (and the mock's
`get_frame`) never raises and returns the current slot content: `none`
when no frame has ever been published, and the most recently published
frame otherwise — even one published before the call began. -/
theorem wait_for_frame_timeout_returns_slot :
    StreamingOutput.waitForFrameTimeout { frame := none } = none ∧
    (∀ (o : StreamingOutput) (buf : Frame),
      StreamingOutput.waitForFrameTimeout (o.write buf).2 = some buf) ∧
    mockGetFrameTimeout mockFresh = none ∧
    (∀ (m : MockState) (f : Frame),
      mockGetFrameTimeout { m with currentFrame := some f } = some f) :=
  ⟨rfl, fun _ _ => rfl, rfl, fun _ _ => rfl⟩

/-! Common operation language for comparing the two camera
implementations (C9). -/

/-- Public camera-session operations (`fps` is accepted and, as in the
source, unused by both implementations). -/
inductive CamOp where
  | getFrame
  | getSettings
  | applySettings (raw : List (String × PyVal))
  | applyPreset (name : String)
  | capturePhoto (raw : Bool)
  | startVideo (fps : Nat)
  | stopVideo
  | isRecording
  | close

/-- Observable result of one camera-session operation. -/
inductive Outcome where
  | gotFrame (f : Option Frame)
  | gotSettings (d : List (String × PyVal))
  | files (fs : List String)
  | startedPath (p : String)
  | stopped (p : Option String)
  | flag (b : Bool)
  | unitDone
  | raised (e : CamError)

/-- One public operation on a `RealCamera`. -/
def realStep (s : RealState) (op : CamOp) (dir ts : String) : Outcome × RealState :=
  match op with
  | .getFrame =>
      (.gotFrame (match s.streamingOutput with
        | some o => o.waitForFrameTimeout
        | none => none), s)
  | .getSettings => (.gotSettings s.settings, s)
  | .applySettings raw =>
      let d := applySettingsFn s.settings raw
      (.gotSettings d, { s with settings := d })
  | .applyPreset name =>
      match List.lookup name PRESETS with
      | none => (.raised .unknownPreset, s)
      | some raw =>
          let d := applySettingsFn s.settings raw
          (.gotSettings d, { s with settings := d })
  | .capturePhoto r =>
      let out := realCapturePhoto s dir ts r
      (.files out.1, out.2.2)
  | .startVideo _ =>
      let out := realStartVideo s dir ts
      (match out.1 with
       | .ok p => .startedPath p
       | .error e => .raised e, out.2.2)
  | .stopVideo =>
      let out := realStopVideo s
      (.stopped out.1, out.2.2)
  | .isRecording => (.flag s.recording, s)
  | .close => (.unitDone, s)

/-- One public operation on a `MockCamera`. -/
def mockStep (m : MockState) (op : CamOp) (dir ts : String) : Outcome × MockState :=
  match op with
  | .getFrame => (.gotFrame (mockGetFrameTimeout m), m)
  | .getSettings => (.gotSettings m.settings, m)
  | .applySettings raw =>
      let d := applySettingsFn m.settings raw
      (.gotSettings d, { m with settings := d })
  | .applyPreset name =>
      match List.lookup name PRESETS with
      | none => (.raised .unknownPreset, m)
      | some raw =>
          let d := applySettingsFn m.settings raw
          (.gotSettings d, { m with settings := d })
  | .capturePhoto r =>
      let out := mockCapturePhoto m dir ts r
      (.files out.1, out.2)
  | .startVideo _ =>
      let out := mockStartVideo m dir ts
      (match out.1 with
       | .ok p => .startedPath p
       | .error e => .raised e, out.2)
  | .stopVideo =>
      let out := mockStopVideo m
      (.stopped out.1, out.2)
  | .isRecording => (.flag m.recording, m)
  | .close => (.unitDone, { m with running := false })

/-- Correspondence of the session states of the two implementations:
equal recording flag, recording path, and settings.  The frame slot and
the mock's `_running` flag are implementation-internal (their contents
are producer-specific). -/
def SessionRel (s : RealState) (m : MockState) : Prop :=
  s.recording = m.recording ∧ s.recordingPath = m.recordingPath ∧
    s.settings = m.settings

/-- C9 counterexample: in corresponding fresh session states (same
mode, same settings), `capture_photo` returns differently shaped
results — the real camera returns the JPEG path, the mock (still
without a frame) returns the empty list. -/
theorem real_mock_capture_disagree :
    SessionRel realFresh mockFresh ∧
    (realStep realFresh (.capturePhoto false) "/c" "T").1 =
      .files ["/c/photo_T.jpg"] ∧
    (mockStep mockFresh (.capturePhoto false) "/c" "T").1 = .files [] ∧
    Outcome.files ["/c/photo_T.jpg"] ≠ Outcome.files [] := by
  refine ⟨⟨rfl, rfl, rfl⟩, rfl, rfl, ?_⟩
  intro h
  simp at h

/-- C9 (amended): apart from frame payloads (`get_frame`, excluded: the
two producers publish different image bytes) and `capture_photo` in the
frameless mock state, the two implementations are behaviorally
equivalent: from corresponding session states, every operation returns
the same observable outcome and leads to corresponding states, provided
the mock holds a current frame when `capture_photo` is invoked. -/
theorem real_mock_equiv (s : RealState) (m : MockState) (dir ts : String) (op : CamOp)
    (hrel : SessionRel s m)
    (hframe : ∀ b, op = .capturePhoto b → m.currentFrame.isSome = true)
    (hnf : op ≠ .getFrame) :
    (realStep s op dir ts).1 = (mockStep m op dir ts).1 ∧
    SessionRel (realStep s op dir ts).2 (mockStep m op dir ts).2 := by
  obtain ⟨h1, h2, h3⟩ := hrel
  cases op with
  | getFrame => exact absurd rfl hnf
  | getSettings =>
    exact ⟨by simp [realStep, mockStep, h3], h1, h2, h3⟩
  | applySettings raw =>
    constructor
    · simp [realStep, mockStep, h3]
    · exact ⟨h1, h2, by simp [realStep, mockStep, h3]⟩
  | applyPreset name =>
    cases hl : List.lookup name PRESETS with
    | none =>
      exact ⟨by simp [realStep, mockStep, hl], by simp [realStep, mockStep, hl]; exact ⟨h1, h2, h3⟩⟩
    | some raw =>
      constructor
      · simp [realStep, mockStep, hl, h3]
      · simp only [realStep, mockStep, hl]
        exact ⟨h1, h2, by simp [h3]⟩
  | capturePhoto b =>
    obtain ⟨f, hf⟩ := Option.isSome_iff_exists.mp (hframe b rfl)
    constructor
    · cases hrec : s.recording <;> cases b <;>
        simp [realStep, mockStep, realCapturePhoto, mockCapturePhoto,
          startRecordingInternal, hrec, hf]
    · cases hrec : s.recording <;>
        simp [realStep, mockStep, realCapturePhoto, mockCapturePhoto,
          startRecordingInternal, SessionRel, hrec, ← h1, h2, h3]
  | startVideo fps =>
    cases hrec : s.recording <;>
      constructor <;>
        simp [realStep, mockStep, realStartVideo, mockStartVideo,
          startRecordingInternal, SessionRel, hrec, ← h1, h2, h3]
  | stopVideo =>
    cases hrec : s.recording <;>
      constructor <;>
        simp [realStep, mockStep, realStopVideo, mockStopVideo, SessionRel,
          hrec, ← h1, h2, h3]
  | isRecording =>
    exact ⟨by simp [realStep, mockStep, ← h1], h1, h2, h3⟩
  | close =>
    exact ⟨by simp [realStep, mockStep], h1, h2, h3⟩

/-- Witness for C9 (amended): the equivalence applied to the fresh
corresponding states and the `stop_video` operation. -/
theorem real_mock_equiv_witness :
    (realStep realFresh .stopVideo "/c" "T").1 =
      (mockStep mockFresh .stopVideo "/c" "T").1 ∧
    SessionRel (realStep realFresh .stopVideo "/c" "T").2
      (mockStep mockFresh .stopVideo "/c" "T").2 :=
  real_mock_equiv realFresh mockFresh "/c" "T" .stopVideo ⟨rfl, rfl, rfl⟩
    (fun _ h => CamOp.noConfusion h) (fun h => CamOp.noConfusion h)

/-! File-management handlers of `app/main.py` (C10): a symlink-free
model of path resolution.  `capDir` stands for the already-resolved
components of `CAPTURES_DIR`; `Path.resolve()` is modelled as lexical
normalization of `.`, `..` and empty components. -/

/-- Split a character list at `/` separators. -/
def splitOnSlash : List Char → List (List Char)
  | [] => [[]]
  | c :: rest =>
      let r := splitOnSlash rest
      if c = '/' then [] :: r
      else
        match r with
        | g :: gs => (c :: g) :: gs
        | [] => [[c]]

/-- Normalize path components over a base: empty and `.` components are
skipped, `..` removes the last accumulated component (staying at the
root when none is left). -/
def resolveComps (acc : List (List Char)) : List (List Char) → List (List Char)
  | [] => acc
  | c :: rest =>
      if c = [] ∨ c = ['.'] then resolveComps acc rest
      else if c = ['.', '.'] then resolveComps acc.dropLast rest
      else resolveComps (acc ++ [c]) rest

/-- The components of `(CAPTURES_DIR / filename).resolve()`: a
`/`-leading filename replaces the base (pathlib join semantics),
otherwise the filename is resolved under the captures directory. -/
def resolveRequest (capDir : List (List Char)) (filename : String) :
    List (List Char) :=
  let comps := splitOnSlash filename.data
  match filename.data with
  | '/' :: _ => resolveComps [] comps
  | _ => resolveComps capDir comps

/-- What `stat` reports for a resolved path. -/
inductive PathKind where
  | absent
  | file
  | dir

/-- File-system touches a handler performs after its traversal check. -/
inductive FsEffect where
  | statCheck (p : List (List Char))
  | readFile (p : List (List Char))
  | unlink (p : List (List Char))

/-- The path an effect touches. -/
def FsEffect.target : FsEffect → List (List Char)
  | .statCheck p => p
  | .readFile p => p
  | .unlink p => p

/-- The `GET /api/files/{filename}` handler: 403 before any
file-system access when the resolved path fails `relative_to` against
the captures directory; otherwise 404 unless an existing regular file,
which is then served. -/
def downloadFile (stat : List (List Char) → PathKind)
    (capDir : List (List Char)) (filename : String) : Nat × List FsEffect :=
  let r := resolveRequest capDir filename
  if capDir.isPrefixOf r then
    match stat r with
    | .file => (200, [.statCheck r, .readFile r])
    | _ => (404, [.statCheck r])
  else
    (403, [])

/-- The `DELETE /api/files/{filename}` handler. -/
def deleteFile (stat : List (List Char) → PathKind)
    (capDir : List (List Char)) (filename : String) : Nat × List FsEffect :=
  let r := resolveRequest capDir filename
  if capDir.isPrefixOf r then
    match stat r with
    | .file => (200, [.statCheck r, .unlink r])
    | _ => (404, [.statCheck r])
  else
    (403, [])

/-- C10: whenever the requested filename resolves outside the captures
directory, both handlers answer 403 with no file-system access at all
(in particular independent of whether the escaped path exists), and
every file-system touch either handler ever performs targets a path
inside the captures directory. -/
theorem path_traversal_rejected (stat : List (List Char) → PathKind)
    (capDir : List (List Char)) (filename : String) :
    (capDir.isPrefixOf (resolveRequest capDir filename) = false →
      downloadFile stat capDir filename = (403, []) ∧
      deleteFile stat capDir filename = (403, [])) ∧
    (∀ e, e ∈ (downloadFile stat capDir filename).2 →
      capDir.isPrefixOf (FsEffect.target e) = true) ∧
    (∀ e, e ∈ (deleteFile stat capDir filename).2 →
      capDir.isPrefixOf (FsEffect.target e) = true) := by
  refine ⟨?_, ?_, ?_⟩
  · intro h
    constructor
    · simp [downloadFile, h]
    · simp [deleteFile, h]
  · intro e he
    cases hp : capDir.isPrefixOf (resolveRequest capDir filename) with
    | false => simp [downloadFile, hp] at he
    | true =>
      cases hs : stat (resolveRequest capDir filename) <;>
        simp [downloadFile, hp, hs] at he
      · subst he; simpa [FsEffect.target] using hp
      · rcases he with rfl | rfl <;> simpa [FsEffect.target] using hp
      · subst he; simpa [FsEffect.target] using hp
  · intro e he
    cases hp : capDir.isPrefixOf (resolveRequest capDir filename) with
    | false => simp [deleteFile, hp] at he
    | true =>
      cases hs : stat (resolveRequest capDir filename) <;>
        simp [deleteFile, hp, hs] at he
      · subst he; simpa [FsEffect.target] using hp
      · rcases he with rfl | rfl <;> simpa [FsEffect.target] using hp
      · subst he; simpa [FsEffect.target] using hp

/-- Witness for C10: the traversal request `../etc` against a captures
directory `/c` is rejected by both handlers with no effects. -/
theorem path_traversal_rejected_witness :
    downloadFile (fun _ => PathKind.file) [['c']] "../etc" = (403, []) ∧
    deleteFile (fun _ => PathKind.file) [['c']] "../etc" = (403, []) :=
  (path_traversal_rejected (fun _ => PathKind.file) [['c']] "../etc").1 (by decide)

end HQAstroCam
